import Mathlib

/-!
Shallow embedding of the admin-dashboard client's auth/session/privilege
logic and of the page-level data handlers, with theorems checking the
specification's claims against it.

Sources embedded:
* `src/contexts/auth-context.tsx` — `AuthProvider` (state, `fetchPrivileges`,
  the init `useEffect`, `signIn`, `signUp`, `signOut`) and the `Sidebar`
  component (`navItems`, `hasPrivilege`, active-entry computation);
* `src/components/protected-route.tsx` — `ProtectedRoute`;
* `src/unnamed/part_002` — the add-expense page's `handleSubmit` (both
  variants present in the file);
* `src/unnamed/part_000` — the dashboard page's `fetchTransactions` and its
  client-side statistics.

Conventions: machine state (React `useState` plus the single localStorage
key `test_auth`) is passed explicitly; `async` remote calls are modelled by
an outcome parameter describing what the remote service returned or threw;
a JS function that can `throw` returns its new state together with an
`Option String` carrying the thrown message (`none` = returned normally).
Record fields that reach JS only through unchecked casts
(`data as UserPrivileges`, `JSON.parse`) are modelled as `Option Bool`,
`none` standing for an absent/undefined key.
-/

namespace AdminDashboard

/-- Mirror of the Supabase `User` fields populated by `createMockUser`. -/
structure User where
  id : String
  email : String
  aud : String
  role : String
  created_at : String
deriving DecidableEq, Repr

/-- Mirror of the Supabase `Session` fields populated by `createMockSession`. -/
structure Session where
  access_token : String
  refresh_token : String
  expires_in : Int
  expires_at : Int
  token_type : String
  user : User
deriving DecidableEq, Repr

/-- Ambient clock, standing for `new Date().toISOString()` and
`Date.now() / 1000` read inside `createMockUser` / `createMockSession`. -/
structure Clock where
  isoNow : String
  epochSeconds : Int
deriving DecidableEq, Repr

/-- `TEST_USER.email` from `auth-context.tsx`. -/
def TEST_USER_email : String := "test@example.com"

/-- `TEST_USER.password` from `auth-context.tsx`. -/
def TEST_USER_password : String := "password123"

/-- `createMockUser` from `auth-context.tsx` (the clock read is made an
explicit argument). -/
def createMockUser (now : Clock) : User :=
  { id := "test-user-id-12345"
    email := TEST_USER_email
    aud := "authenticated"
    role := "authenticated"
    created_at := now.isoNow }

/-- `createMockSession` from `auth-context.tsx`. -/
def createMockSession (now : Clock) : Session :=
  { access_token := "mock-access-token"
    refresh_token := "mock-refresh-token"
    expires_in := 3600
    expires_at := now.epochSeconds + 3600
    token_type := "bearer"
    user := createMockUser now }

/-- The `UserPrivileges` record. Fields are `Option Bool` because at runtime
the record originates from unchecked casts (`data as UserPrivileges` in
`fetchPrivileges`, `JSON.parse` in the init effect), so a key may be absent
(`none`) rather than `false`. -/
structure UserPrivileges where
  can_add_expense : Option Bool
  can_add_income : Option Bool
  can_view_reports : Option Bool
  can_upload_bills : Option Bool
  can_download_reports : Option Bool
deriving DecidableEq, Repr

/-- The privilege record written by every fallback path in
`auth-context.tsx`: all five permissions `true`. -/
def defaultPrivileges : UserPrivileges :=
  { can_add_expense := some true
    can_add_income := some true
    can_view_reports := some true
    can_upload_bills := some true
    can_download_reports := some true }

/-- The five privilege key names (the TS string-literal union used by
`NavItem.privilegeKey`). -/
inductive PrivilegeKey where
  | can_add_expense
  | can_add_income
  | can_view_reports
  | can_upload_bills
  | can_download_reports
deriving DecidableEq, Repr

/-- JS member access `privileges[privilegeKey]` on a `UserPrivileges`
record: yields the stored value, or `none` when the key is absent. -/
def UserPrivileges.lookup (p : UserPrivileges) : PrivilegeKey → Option Bool
  | .can_add_expense => p.can_add_expense
  | .can_add_income => p.can_add_income
  | .can_view_reports => p.can_view_reports
  | .can_upload_bills => p.can_upload_bills
  | .can_download_reports => p.can_download_reports

/-- Outcome of the `supabase.from('user_privileges')...single()` call inside
`fetchPrivileges`: either the call resolved with a `{ data, error }` pair, or
it threw (`exn`), landing in the `catch` block. With `.single()`, an absent
record resolves as `ret none (some e)` (an error object, not a throw). -/
inductive QueryOutcome where
  | ret (data : Option UserPrivileges) (error : Option String)
  | exn (msg : String)
deriving DecidableEq, Repr

/-- Body of the `try` block of `fetchPrivileges`: `error` non-null sets the
all-`true` default; otherwise the cast `data` is adopted; a throw escapes to
the `catch`. The value is the privilege state the block would install. -/
def fetchPrivilegesTry : QueryOutcome → Except String (Option UserPrivileges)
  | .ret data err =>
    match err with
    | some _ => .ok (some defaultPrivileges)
    | none => .ok data
  | .exn m => .error m

/-- `fetchPrivileges` from `auth-context.tsx`: the `try` body with its
`catch` handler, which absorbs the exception and sets the privilege state to
`null`. The result is the new value of the `privileges` state; no error ever
propagates to the caller (the return type is not `Except`). -/
def fetchPrivileges (userId : String) (outcome : QueryOutcome) :
    Option UserPrivileges :=
  match userId, fetchPrivilegesTry outcome with
  | _, .ok p => p
  | _, .error _ => none

/-- `hasPrivilege` from the `Sidebar` component: `true` when the item has no
key or the privilege set is `null`; otherwise the strict comparison
`privileges[privilegeKey] === true`. -/
def hasPrivilege (privileges : Option UserPrivileges)
    (privilegeKey : Option PrivilegeKey) : Bool :=
  match privilegeKey, privileges with
  | none, _ => true
  | some _, none => true
  | some k, some p => p.lookup k == some true

/-- A privilege record whose `can_add_expense` key is absent (undefined at
runtime), as can arise from the unchecked casts feeding `setPrivileges`. -/
def partialPrivileges : UserPrivileges :=
  { can_add_expense := none
    can_add_income := some true
    can_view_reports := some true
    can_upload_bills := some true
    can_download_reports := some true }

/-- C2 counterexample: when the privilege query throws (the `catch` path),
`fetchPrivileges` sets the privilege state to `null`, not to the documented
all-`true` default — refuting "always leaves the privilege set equal to the
documented default record ... rather than null" for the thrown-exception
failure mode. -/
theorem fetchPrivileges_exception_yields_null :
    fetchPrivileges "test-user-id-12345" (QueryOutcome.exn "network down") = none
      ∧ fetchPrivileges "test-user-id-12345" (QueryOutcome.exn "network down")
          ≠ some defaultPrivileges := by
  constructor
  · rfl
  · decide

/-- C2 (amended): `fetchPrivileges` never propagates an error (its result
type carries no error), and on a lookup failure reported through the `error`
field — which covers both an absent record and a query error under
`.single()` — it installs the all-`true` default; but on a thrown exception
the `catch` block installs `null` instead of the default. -/
theorem fetchPrivileges_error_handling :
    (∀ (userId : String) (data : Option UserPrivileges) (e : String),
        fetchPrivileges userId (QueryOutcome.ret data (some e))
          = some defaultPrivileges)
      ∧ (∀ (userId : String) (p : UserPrivileges),
          fetchPrivileges userId (QueryOutcome.ret (some p) none) = some p)
      ∧ (∀ (userId m : String),
          fetchPrivileges userId (QueryOutcome.exn m) = none) := by
  refine ⟨fun _ _ _ => rfl, fun _ _ => rfl, fun _ _ => rfl⟩

/-- C3 counterexample: with a resolved (non-null) privilege record whose
`can_add_expense` key is absent, `hasPrivilege` returns `false` — the entry
is hidden, refuting the claim that an absent key makes the entry visible. -/
theorem hasPrivilege_absent_key_hidden :
    partialPrivileges.lookup PrivilegeKey.can_add_expense = none
      ∧ hasPrivilege (some partialPrivileges)
          (some PrivilegeKey.can_add_expense) = false := by
  decide

/-- C3 (amended): for every resolved privilege record and every key absent
from it, `hasPrivilege` returns `false` (the entry is hidden): the strict
comparison `=== true` fails on an undefined value, so the fail-open default
applies only when the whole privilege set is `null` or the entry carries no
key. -/
theorem hasPrivilege_absent_key_returns_false
    (p : UserPrivileges) (k : PrivilegeKey) (h : p.lookup k = none) :
    hasPrivilege (some p) (some k) = false := by
  simp [hasPrivilege, h]

/-- Witness for `hasPrivilege_absent_key_returns_false` at a concrete
record and key. -/
theorem hasPrivilege_absent_key_returns_false_witness :
    partialPrivileges.lookup PrivilegeKey.can_view_reports
        = partialPrivileges.can_view_reports
      ∧ hasPrivilege (some { partialPrivileges with can_view_reports := none })
          (some PrivilegeKey.can_view_reports) = false :=
  ⟨rfl, hasPrivilege_absent_key_returns_false _ _ (by decide)⟩

/-- The serialized `{ user, session }` record that `signIn` / `signUp` write
to localStorage under the single key `test_auth` (serialization is modelled
structurally). -/
structure StoredAuth where
  user : User
  session : Session
deriving DecidableEq, Repr

/-- Combined provider state: the four React `useState` cells of
`AuthProvider` plus the one localStorage key `test_auth` the fallback mode
uses. -/
structure ProviderState where
  user : Option User
  session : Option Session
  privileges : Option UserPrivileges
  loading : Bool
  test_auth : Option StoredAuth
deriving DecidableEq, Repr

/-- State at mount: `useState(null)` three times, `useState(true)` for
`loading`; the storage key content is whatever persists, taken here as the
pre-existing value of the scenario (the initial React cells are fixed). -/
def initialProviderState (stored : Option StoredAuth) : ProviderState :=
  { user := none
    session := none
    privileges := none
    loading := true
    test_auth := stored }

/-- Outcome of a delegated (`supabase.auth.*`) call that returns an
`{ error }` object. -/
inductive RemoteAuthOutcome where
  | ok
  | err (e : String)
deriving DecidableEq, Repr

/-- Result of running one provider operation: the state it leaves behind and
the message it threw, if any (`none` = returned normally). A thrown message
with the prior state intact models a JS `throw` reaching the caller. -/
structure OpResult where
  state : ProviderState
  thrown : Option String
deriving DecidableEq, Repr

/-- `signIn` from `auth-context.tsx`. In test mode the designated credential
pair installs the mock identity/session, the all-`true` privileges, and the
localStorage record, while any other pair throws the fixed message before
touching any state; in delegated mode the call is forwarded and a returned
error is re-thrown (state updates then arrive via `onAuthStateChange`, not
here). -/
def signIn (testMode : Bool) (email password : String) (now : Clock)
    (remote : RemoteAuthOutcome) (st : ProviderState) : OpResult :=
  if testMode then
    if email = TEST_USER_email ∧ password = TEST_USER_password then
      let mockUser := createMockUser now
      let mockSession := createMockSession now
      { state :=
          { st with
            user := some mockUser
            session := some mockSession
            privileges := some
              { can_add_expense := some true
                can_add_income := some true
                can_view_reports := some true
                can_upload_bills := some true
                can_download_reports := some true }
            test_auth := some { user := mockUser, session := mockSession } }
        thrown := none }
    else
      { state := st
        thrown := some "Invalid test credentials. Use test@example.com / password123" }
  else
    match remote with
    | .ok => { state := st, thrown := none }
    | .err e => { state := st, thrown := some e }

/-- `signUp` from `auth-context.tsx`: in test mode it unconditionally
installs a fresh mock session regardless of input. -/
def signUp (testMode : Bool) (email password : String) (now : Clock)
    (remote : RemoteAuthOutcome) (st : ProviderState) : OpResult :=
  if testMode then
    let mockUser := createMockUser now
    let mockSession := createMockSession now
    { state :=
        { st with
          user := some mockUser
          session := some mockSession
          privileges := some defaultPrivileges
          test_auth := some { user := mockUser, session := mockSession } }
      thrown := none }
  else
    match email, password, remote with
    | _, _, .ok => { state := st, thrown := none }
    | _, _, .err e => { state := st, thrown := some e }

/-- `signOut` from `auth-context.tsx`: in test mode it removes the
localStorage record and nulls user/session/privileges; in delegated mode it
forwards to `supabase.auth.signOut()` and re-throws a returned error,
without itself touching local state (the listener does that). -/
def signOut (testMode : Bool) (remote : RemoteAuthOutcome)
    (st : ProviderState) : OpResult :=
  if testMode then
    { state :=
        { st with
          test_auth := none
          user := none
          session := none
          privileges := none }
      thrown := none }
  else
    match remote with
    | .ok => { state := st, thrown := none }
    | .err e => { state := st, thrown := some e }

/-- Result of `localStorage.getItem('test_auth')` followed by `JSON.parse`
in the test-mode init effect: key absent, parsed successfully, or parse
threw. -/
inductive StoredRead where
  | absent
  | parsed (v : StoredAuth)
  | malformed
deriving DecidableEq, Repr

/-- Test-mode branch of the init `useEffect`: on a parsed record it sets
user, session and the all-`true` privileges, then clears `loading`; on a
parse failure it removes the key; in every branch `loading` ends `false`.
All of this is synchronous, so only the final state is observable. -/
def testModeInit (stored : StoredRead) (st : ProviderState) : ProviderState :=
  match stored with
  | .absent => { st with loading := false }
  | .parsed v =>
    { st with
      user := some v.user
      session := some v.session
      privileges := some
        { can_add_expense := some true
          can_add_income := some true
          can_view_reports := some true
          can_upload_bills := some true
          can_download_reports := some true }
      loading := false }
  | .malformed => { st with test_auth := none, loading := false }

/-- Continuation of `supabase.auth.getSession().then(...)` in the delegated
init path: sets session and user and clears `loading`. `fetchPrivileges` is
invoked here but NOT awaited, so the privileges cell is untouched by this
step — its update lands in a later microtask (`delegatedPrivilegesStep`). -/
def delegatedSessionStep (sess : Option Session) (st : ProviderState) :
    ProviderState :=
  { st with
    session := sess
    user := sess.map Session.user
    loading := false }

/-- Later completion of the un-awaited `fetchPrivileges` call started by the
delegated init (or auth-change) step, for the user present at that point. -/
def delegatedPrivilegesStep (outcome : QueryOutcome) (st : ProviderState) :
    ProviderState :=
  match st.user with
  | some u => { st with privileges := fetchPrivileges u.id outcome }
  | none => st

/-- `onAuthStateChange` callback in the delegated path: adopts the new
session/user and clears `loading`; with a user it starts (without awaiting)
`fetchPrivileges`, without one it nulls the privileges. -/
def delegatedAuthChangeStep (sess : Option Session) (st : ProviderState) :
    ProviderState :=
  match sess with
  | some s =>
    { st with session := some s, user := some s.user, loading := false }
  | none =>
    { st with session := none, user := none, privileges := none, loading := false }

/-- Observable states of the delegated init path from mount: the initial
state, the state after the `getSession` continuation (privileges still
pending), and — when a user is present — the state after the privilege
fetch completes. -/
def delegatedInitTrace (sess : Option Session) (outcome : QueryOutcome) :
    List ProviderState :=
  let st0 := initialProviderState none
  let st1 := delegatedSessionStep sess st0
  match sess with
  | some _ => [st0, st1, delegatedPrivilegesStep outcome st1]
  | none => [st0, st1]

/-- Sample concrete identity for counterexamples and witnesses. -/
def sampleUser : User :=
  { id := "u-1"
    email := "someone@example.org"
    aud := "authenticated"
    role := "authenticated"
    created_at := "2026-01-01T00:00:00Z" }

/-- Sample concrete session wrapping `sampleUser`. -/
def sampleSession : Session :=
  { access_token := "tok"
    refresh_token := "ref"
    expires_in := 3600
    expires_at := 1767225600
    token_type := "bearer"
    user := sampleUser }

/-- C1 counterexample: in the delegated init path the `getSession`
continuation clears `loading` without awaiting `fetchPrivileges`, so the
trace contains an observable state with a non-null user, `loading = false`
and a null privilege set — refuting the claimed invariant for the delegated
paths. -/
theorem delegated_init_violates_privilege_loading_invariant :
    delegatedSessionStep (some sampleSession) (initialProviderState none)
        ∈ delegatedInitTrace (some sampleSession)
            (QueryOutcome.ret (some defaultPrivileges) none)
      ∧ (delegatedSessionStep (some sampleSession)
          (initialProviderState none)).loading = false
      ∧ (delegatedSessionStep (some sampleSession)
          (initialProviderState none)).user ≠ none
      ∧ (delegatedSessionStep (some sampleSession)
          (initialProviderState none)).privileges = none := by
  refine ⟨?_, rfl, ?_, rfl⟩
  · exact List.mem_cons_of_mem _ (List.mem_cons_self _ _)
  · decide

/-- C1 (amended): the invariant "user non-null and `loading = false` implies
privileges non-null" holds for the local-fallback (test-mode) init path,
where privilege assignment is synchronous and precedes `setLoading(false)`;
in the delegated paths (`getSession` continuation and `onAuthStateChange`)
`loading` is cleared without awaiting `fetchPrivileges`, so right after
those steps a signed-in user coexists with a null privilege set. -/
theorem privilege_loading_invariant_testmode_only :
    (∀ (stored : StoredRead) (pre : Option StoredAuth),
        (testModeInit stored (initialProviderState pre)).loading = false
          → (testModeInit stored (initialProviderState pre)).user ≠ none
          → (testModeInit stored (initialProviderState pre)).privileges ≠ none)
      ∧ (∀ s : Session,
          (delegatedSessionStep (some s) (initialProviderState none)).loading
              = false
            ∧ (delegatedSessionStep (some s) (initialProviderState none)).user
              = some s.user
            ∧ (delegatedSessionStep (some s)
                (initialProviderState none)).privileges = none)
      ∧ (∀ s : Session,
          (delegatedAuthChangeStep (some s) (initialProviderState none)).loading
              = false
            ∧ (delegatedAuthChangeStep (some s)
                (initialProviderState none)).user = some s.user
            ∧ (delegatedAuthChangeStep (some s)
                (initialProviderState none)).privileges = none) := by
  refine ⟨?_, fun s => ⟨rfl, rfl, rfl⟩, fun s => ⟨rfl, rfl, rfl⟩⟩
  intro stored pre
  cases stored <;> simp [testModeInit, initialProviderState]

/-- Witness for `privilege_loading_invariant_testmode_only` at a concrete
stored record. -/
theorem privilege_loading_invariant_testmode_only_witness :
    (testModeInit (StoredRead.parsed { user := sampleUser, session := sampleSession })
        (initialProviderState none)).privileges ≠ none :=
  privilege_loading_invariant_testmode_only.1
    (StoredRead.parsed { user := sampleUser, session := sampleSession }) none
    rfl (by decide)

/-- C4: in fallback mode, `signIn` with the designated credential pair
returns normally, installs the fixed mock identity (`test-user-id-12345`,
`test@example.com`) and session, sets all five privileges to `true`, and
writes the `{ user, session }` record holding that identity to the single
localStorage key; the identity id is the same across repeated calls (it does
not depend on the clock or prior state). -/
theorem signIn_test_credentials_succeed (now now2 : Clock)
    (remote : RemoteAuthOutcome) (st : ProviderState) :
    signIn true "test@example.com" "password123" now remote st
        = { state :=
              { st with
                user := some (createMockUser now)
                session := some (createMockSession now)
                privileges := some defaultPrivileges
                test_auth := some
                  { user := createMockUser now
                    session := createMockSession now } }
            thrown := none }
      ∧ (createMockUser now).id = "test-user-id-12345"
      ∧ (createMockUser now).email = "test@example.com"
      ∧ (createMockUser now2).id = (createMockUser now).id := by
  refine ⟨?_, rfl, rfl, rfl⟩
  simp [signIn, TEST_USER_email, TEST_USER_password, defaultPrivileges]

/-- C5: in fallback mode, `signIn` with any credential pair other than the
designated one throws exactly
"Invalid test credentials. Use test@example.com / password123" and leaves
the whole provider state — user, session, privileges, and the persisted
localStorage record — unchanged (the throw precedes every state write). -/
theorem signIn_bad_credentials_fail (email password : String) (now : Clock)
    (remote : RemoteAuthOutcome) (st : ProviderState)
    (h : ¬(email = "test@example.com" ∧ password = "password123")) :
    signIn true email password now remote st
      = { state := st
          thrown := some "Invalid test credentials. Use test@example.com / password123" } := by
  simp [signIn, TEST_USER_email, TEST_USER_password, h]

/-- Witness for `signIn_bad_credentials_fail` at a concrete wrong
credential pair. -/
theorem signIn_bad_credentials_fail_witness :
    ¬("x@y.com" = "test@example.com" ∧ "wrong" = "password123")
      ∧ signIn true "x@y.com" "wrong" ⟨"2026-01-01T00:00:00Z", 0⟩
          RemoteAuthOutcome.ok (initialProviderState none)
        = { state := initialProviderState none
            thrown := some "Invalid test credentials. Use test@example.com / password123" } :=
  ⟨by decide,
    signIn_bad_credentials_fail "x@y.com" "wrong" ⟨"2026-01-01T00:00:00Z", 0⟩
      RemoteAuthOutcome.ok (initialProviderState none) (by decide)⟩

/-- A fully signed-out provider state, for the C6 counterexample. -/
def signedOutState : ProviderState :=
  { user := none
    session := none
    privileges := none
    loading := false
    test_auth := none }

/-- C6 counterexample: in delegated mode, `signOut` re-throws an error
returned by the remote service (`if (error) throw error`) even when already
signed out — refuting "in every mode ... never fails (never throws)". -/
theorem signOut_delegated_can_throw :
    (signOut false (RemoteAuthOutcome.err "network error") signedOutState).thrown
      = some "network error" := by
  rfl

/-- C6 (amended): in local-fallback mode `signOut` never throws, always
clears user, session and privileges, removes the persisted localStorage
record, and is idempotent (a second call leaves the state of the first);
in delegated mode `signOut` does not itself modify local session state and
throws exactly when the remote service returns an error. -/
theorem signOut_behavior :
    (∀ (remote : RemoteAuthOutcome) (st : ProviderState),
        (signOut true remote st).thrown = none
          ∧ (signOut true remote st).state.user = none
          ∧ (signOut true remote st).state.session = none
          ∧ (signOut true remote st).state.privileges = none
          ∧ (signOut true remote st).state.test_auth = none
          ∧ signOut true remote ((signOut true remote st).state)
              = signOut true remote st)
      ∧ (∀ st : ProviderState,
          signOut false RemoteAuthOutcome.ok st = { state := st, thrown := none })
      ∧ (∀ (e : String) (st : ProviderState),
          signOut false (RemoteAuthOutcome.err e) st
            = { state := st, thrown := some e }) := by
  refine ⟨fun remote st => ⟨rfl, rfl, rfl, rfl, rfl, rfl⟩,
    fun st => rfl, fun e st => rfl⟩

/-- `NavItem` from the `Sidebar` component (the icon is presentation only
and carries no logic). -/
structure NavItem where
  name : String
  href : String
  privilegeKey : Option PrivilegeKey
deriving DecidableEq, Repr

/-- `navItems` from the `Sidebar` component. -/
def navItems : List NavItem :=
  [ { name := "Dashboard", href := "/dashboard", privilegeKey := none }
  , { name := "Add Expense", href := "/dashboard/expenses/add"
      privilegeKey := some PrivilegeKey.can_add_expense }
  , { name := "Add Income", href := "/dashboard/income/add"
      privilegeKey := some PrivilegeKey.can_add_income }
  , { name := "Reports & Analytics", href := "/dashboard/reports"
      privilegeKey := some PrivilegeKey.can_view_reports }
  , { name := "Upload Bills", href := "/dashboard/bills"
      privilegeKey := some PrivilegeKey.can_upload_bills }
  , { name := "Download Reports", href := "/dashboard/downloads"
      privilegeKey := some PrivilegeKey.can_download_reports } ]

/-- `isActive` computation in the `Sidebar` render: `pathname === item.href`
(exact string equality). -/
def isActive (pathname : String) (item : NavItem) : Bool :=
  pathname == item.href

/-- Auxiliary: in a navigation list whose hrefs are pairwise distinct, at
most one entry matches any given path by exact equality. -/
theorem length_filter_isActive_le_one (pathname : String) (l : List NavItem)
    (h : (l.map NavItem.href).Nodup) :
    (l.filter (isActive pathname)).length ≤ 1 := by
  induction l with
  | nil => simp
  | cons i tl ih =>
    rw [List.map_cons, List.nodup_cons] at h
    by_cases hp : isActive pathname i = true
    · have hpath : pathname = i.href := by simpa [isActive] using hp
      have hnil : tl.filter (isActive pathname) = [] := by
        rw [List.filter_eq_nil_iff]
        intro j hj hja
        have hjh : pathname = j.href := by simpa [isActive] using hja
        have hij : i.href = j.href := by rw [← hpath, hjh]
        exact h.1 (by rw [hij]; exact List.mem_map_of_mem NavItem.href hj)
      simp [List.filter_cons, hp, hnil]
    · simp only [List.filter_cons, if_neg hp]
      exact ih h.2

/-- C7: the sidebar's visibility and active-entry computation — an entry
without a privilege key is always visible; with a null privilege set every
entry is visible; with a resolved set a keyed entry is visible iff its key
maps to `true`; and for every path at most one entry is active, an entry
being active exactly when its href equals the path by string equality. -/
theorem sidebar_visibility_and_active :
    (∀ (privs : Option UserPrivileges) (item : NavItem),
        item.privilegeKey = none → hasPrivilege privs item.privilegeKey = true)
      ∧ (∀ item : NavItem, hasPrivilege none item.privilegeKey = true)
      ∧ (∀ (p : UserPrivileges) (item : NavItem) (k : PrivilegeKey),
          item.privilegeKey = some k →
            (hasPrivilege (some p) item.privilegeKey = true
              ↔ p.lookup k = some true))
      ∧ (∀ pathname : String,
          (navItems.filter (isActive pathname)).length ≤ 1)
      ∧ (∀ (pathname : String) (item : NavItem),
          isActive pathname item = true ↔ pathname = item.href) := by
  refine ⟨?_, ?_, ?_, ?_, ?_⟩
  · intro privs item h
    rw [h]
    rfl
  · intro item
    cases item.privilegeKey <;> rfl
  · intro p item k h
    rw [h]
    simp [hasPrivilege]
  · intro pathname
    exact length_filter_isActive_le_one pathname navItems (by decide)
  · intro pathname item
    simp [isActive]

/-- Witness for `sidebar_visibility_and_active` at concrete items,
discharging the hypotheses of its first and third conjuncts. -/
theorem sidebar_visibility_and_active_witness :
    hasPrivilege (some partialPrivileges)
        (NavItem.mk "Dashboard" "/dashboard" none).privilegeKey = true
      ∧ (hasPrivilege (some defaultPrivileges)
            (NavItem.mk "Add Income" "/dashboard/income/add"
              (some PrivilegeKey.can_add_income)).privilegeKey = true
          ↔ defaultPrivileges.lookup PrivilegeKey.can_add_income = some true) :=
  ⟨sidebar_visibility_and_active.1 (some partialPrivileges) _ rfl,
    sidebar_visibility_and_active.2.2.1 defaultPrivileges _
      PrivilegeKey.can_add_income rfl⟩

/-- What `ProtectedRoute` renders: the loading placeholder, nothing
(`return null`), or the protected children. -/
inductive GuardRender where
  | placeholder
  | nothing
  | children
deriving DecidableEq, Repr

/-- The dependency tuple of `ProtectedRoute`'s `useEffect` (the `router`
object is stable across renders and omitted). -/
structure GuardDeps where
  user : Option User
  loading : Bool
deriving DecidableEq, Repr

/-- Render function of `ProtectedRoute`: loading → spinner placeholder; no
user → `null`; otherwise the children. -/
def guardRender (d : GuardDeps) : GuardRender :=
  if d.loading then GuardRender.placeholder
  else if d.user = none then GuardRender.nothing
  else GuardRender.children

/-- Condition under which the effect body calls `router.push('/login')`:
`!loading && !user`. -/
def guardRedirectCond (d : GuardDeps) : Bool :=
  !d.loading && d.user.isNone

/-- Number of redirects issued over the renders after the first, given the
previous dependency tuple: React re-runs the effect exactly when the
dependencies changed, and the body then redirects iff `!loading && !user`. -/
def redirectCountFrom : GuardDeps → List GuardDeps → Nat
  | _, [] => 0
  | prev, d :: rest =>
    (if d ≠ prev ∧ guardRedirectCond d then 1 else 0) + redirectCountFrom d rest

/-- Total number of redirects over a trace of dependency tuples (the effect
also runs on mount). -/
def guardRedirects : List GuardDeps → Nat
  | [] => 0
  | d :: rest => (if guardRedirectCond d then 1 else 0) + redirectCountFrom d rest

/-- Number of entries into the unauthorized region after the first render:
positions where the redirect condition holds but did not hold previously. -/
def entryCountFrom : GuardDeps → List GuardDeps → Nat
  | _, [] => 0
  | prev, d :: rest =>
    (if guardRedirectCond prev = false ∧ guardRedirectCond d then 1 else 0)
      + entryCountFrom d rest

/-- Total number of entries into the unauthorized region over a trace. -/
def guardEntries : List GuardDeps → Nat
  | [] => 0
  | d :: rest => (if guardRedirectCond d then 1 else 0) + entryCountFrom d rest

/-- Auxiliary: the redirect condition pins down the whole dependency tuple
(`user = none`, `loading = false`), so two tuples both satisfying it are
equal — this is why staying inside the unauthorized region can never re-run
the effect. -/
theorem guardRedirectCond_unique (a b : GuardDeps)
    (ha : guardRedirectCond a = true) (hb : guardRedirectCond b = true) :
    a = b := by
  cases a with
  | mk ua la =>
    cases b with
    | mk ub lb =>
      simp only [guardRedirectCond, Bool.and_eq_true, Bool.not_eq_true',
        Option.isNone_iff_eq_none] at ha hb
      rw [ha.1, ha.2, hb.1, hb.2]

/-- Auxiliary: from any previous dependency tuple, the effect semantics
(fire on dependency change) and the specification semantics (fire on entry
into the unauthorized region) count the same redirects. -/
theorem redirectCountFrom_eq_entryCountFrom (prev : GuardDeps)
    (l : List GuardDeps) :
    redirectCountFrom prev l = entryCountFrom prev l := by
  induction l generalizing prev with
  | nil => rfl
  | cons d rest ih =>
    have hcond : (d ≠ prev ∧ guardRedirectCond d)
        ↔ (guardRedirectCond prev = false ∧ guardRedirectCond d) := by
      constructor
      · rintro ⟨hne, hd⟩
        refine ⟨?_, hd⟩
        by_contra hp
        exact hne (guardRedirectCond_unique d prev hd
          (by simpa using hp))
      · rintro ⟨hp, hd⟩
        refine ⟨?_, hd⟩
        intro he
        rw [he] at hd
        rw [hd] at hp
        exact Bool.noConfusion hp
    simp only [redirectCountFrom, entryCountFrom, ih]
    rw [if_congr hcond rfl rfl]

/-- C9: `ProtectedRoute` as the claimed three-state machine — while loading
it renders only the placeholder and the redirect condition is off; when
loading is done and no identity is present it renders `null` (none of the
protected content); when an identity is present (loading done) it renders
the children; and over every trace of renders, the number of redirect calls
equals the number of entries into the unauthorized state (exactly once per
entry, never repeated for an unchanged state). -/
theorem protected_route_state_machine :
    (∀ d : GuardDeps, d.loading = true →
        guardRender d = GuardRender.placeholder ∧ guardRedirectCond d = false)
      ∧ (∀ d : GuardDeps, d.loading = false → d.user = none →
          guardRender d = GuardRender.nothing
            ∧ guardRender d ≠ GuardRender.children)
      ∧ (∀ (d : GuardDeps) (u : User), d.loading = false → d.user = some u →
          guardRender d = GuardRender.children)
      ∧ (∀ trace : List GuardDeps, guardRedirects trace = guardEntries trace) := by
  refine ⟨?_, ?_, ?_, ?_⟩
  · intro d h
    constructor
    · simp [guardRender, h]
    · simp [guardRedirectCond, h]
  · intro d h hu
    constructor
    · simp [guardRender, h, hu]
    · simp [guardRender, h, hu]
  · intro d u h hu
    simp [guardRender, h, hu]
  · intro trace
    cases trace with
    | nil => rfl
    | cons d rest =>
      simp only [guardRedirects, guardEntries]
      rw [redirectCountFrom_eq_entryCountFrom]

/-- Witness for `protected_route_state_machine` at concrete dependency
tuples for each of the three states. -/
theorem protected_route_state_machine_witness :
    guardRender { user := none, loading := true } = GuardRender.placeholder
      ∧ guardRender { user := none, loading := false } = GuardRender.nothing
      ∧ guardRender { user := some sampleUser, loading := false }
        = GuardRender.children :=
  ⟨(protected_route_state_machine.1 { user := none, loading := true } rfl).1,
    (protected_route_state_machine.2.1 { user := none, loading := false }
      rfl rfl).1,
    protected_route_state_machine.2.2.1
      { user := some sampleUser, loading := false } sampleUser rfl rfl⟩

/-- Form fields of the add-expense page (`formData` in the first
`AddExpensePage` of `src/unnamed/part_002`). Empty string means the field
was left empty (JS falsiness on strings). -/
structure ExpenseFormData where
  amount : String
  typeId : String
  description : String
  date : String
deriving DecidableEq, Repr

/-- Page-local state touched by `handleSubmit`. -/
structure ExpensePageState where
  formData : ExpenseFormData
  loading : Bool
  success : Bool
  error : String
deriving DecidableEq, Repr

/-- Row shape of the `Transaction` insert issued on the happy path (the
amount is kept as the raw field string; `parseFloat` is numeric parsing the
claims never reach). -/
structure TransactionInsert where
  transID : String
  personID : String
  amountField : String
  transactionDate : String
deriving DecidableEq, Repr

/-- Result of one `handleSubmit` run: the page state it leaves, the insert
it issued (if any), and whether the delayed navigation was scheduled. -/
structure SubmitResult where
  state : ExpensePageState
  inserted : Option TransactionInsert
  navScheduled : Bool
deriving DecidableEq, Repr

/-- `handleSubmit` of the first `AddExpensePage` in `src/unnamed/part_002`:
requires a signed-in user and a resolved `personId`; validates that amount,
type and date are non-empty before any network call; then inserts one
`Transaction` row, and on success schedules navigation after the fixed
delay, while an insert error is caught and surfaced as the page-local error
string (with a generic fallback for an empty message). -/
def handleSubmit (user : Option User) (personId : Option String)
    (insertError : Option String) (st : ExpensePageState) : SubmitResult :=
  match user, personId with
  | some _, some pid =>
    if st.formData.amount = "" ∨ st.formData.typeId = "" ∨ st.formData.date = ""
    then
      { state := { st with error := "Please fill in all required fields" }
        inserted := none
        navScheduled := false }
    else
      let row : TransactionInsert :=
        { transID := st.formData.typeId
          personID := pid
          amountField := st.formData.amount
          transactionDate := st.formData.date }
      match insertError with
      | none =>
        { state := { st with loading := false, success := true, error := "" }
          inserted := some row
          navScheduled := true }
      | some e =>
        { state :=
            { st with
              loading := false
              error := if e = "" then "Failed to add expense" else e }
          inserted := some row
          navScheduled := false }
  | _, _ =>
    { state := { st with error := "You must be logged in to add expenses" }
      inserted := none
      navScheduled := false }

/-- Form fields of the second (variant) `AddExpensePage` in
`src/unnamed/part_002`, which uses a flat `category` string and the
`expenses` table. -/
structure ExpenseFormData2 where
  amount : String
  category : String
  description : String
  date : String
deriving DecidableEq, Repr

/-- Page-local state of the variant page. -/
structure ExpensePageState2 where
  formData : ExpenseFormData2
  loading : Bool
  success : Bool
  error : String
deriving DecidableEq, Repr

/-- Row shape of the variant's `expenses` insert. -/
structure ExpenseInsert where
  user_id : String
  amountField : String
  category : String
  description : String
  date : String
deriving DecidableEq, Repr

/-- Result of one run of the variant `handleSubmit`. -/
structure SubmitResult2 where
  state : ExpensePageState2
  inserted : Option ExpenseInsert
  navScheduled : Bool
deriving DecidableEq, Repr

/-- `handleSubmit` of the variant `AddExpensePage` in
`src/unnamed/part_002`: requires only a signed-in user, validates amount,
category and date, and inserts into `expenses`. -/
def handleSubmit2 (user : Option User) (insertError : Option String)
    (st : ExpensePageState2) : SubmitResult2 :=
  match user with
  | some u =>
    if st.formData.amount = "" ∨ st.formData.category = ""
        ∨ st.formData.date = "" then
      { state := { st with error := "Please fill in all required fields" }
        inserted := none
        navScheduled := false }
    else
      let row : ExpenseInsert :=
        { user_id := u.id
          amountField := st.formData.amount
          category := st.formData.category
          description := st.formData.description
          date := st.formData.date }
      match insertError with
      | none =>
        { state := { st with loading := false, success := true, error := "" }
          inserted := some row
          navScheduled := true }
      | some e =>
        { state :=
            { st with
              loading := false
              error := if e = "" then "Failed to add expense" else e }
          inserted := some row
          navScheduled := false }
  | none =>
    { state := { st with error := "You must be logged in to add expenses" }
      inserted := none
      navScheduled := false }

/-- C8: submitting the add-expense form of a signed-in session with an empty
amount, type or date field sets the page-local error to exactly
"Please fill in all required fields", issues no network call, and leaves
the form data unchanged — in both `handleSubmit` variants of the page. -/
theorem add_expense_validation (u : User) (pid : String)
    (insertError : Option String) (st : ExpensePageState)
    (st2 : ExpensePageState2)
    (h : st.formData.amount = "" ∨ st.formData.typeId = ""
      ∨ st.formData.date = "")
    (h2 : st2.formData.amount = "" ∨ st2.formData.category = ""
      ∨ st2.formData.date = "") :
    (handleSubmit (some u) (some pid) insertError st).state.error
        = "Please fill in all required fields"
      ∧ (handleSubmit (some u) (some pid) insertError st).inserted = none
      ∧ (handleSubmit (some u) (some pid) insertError st).state.formData
        = st.formData
      ∧ (handleSubmit2 (some u) insertError st2).state.error
        = "Please fill in all required fields"
      ∧ (handleSubmit2 (some u) insertError st2).inserted = none
      ∧ (handleSubmit2 (some u) insertError st2).state.formData
        = st2.formData := by
  refine ⟨?_, ?_, ?_, ?_, ?_, ?_⟩ <;>
    simp [handleSubmit, handleSubmit2, h, h2]

/-- Witness for `add_expense_validation`: a submission with the amount field
empty but type and date filled. -/
theorem add_expense_validation_witness :
    (handleSubmit (some sampleUser) (some "person-1") none
        { formData :=
            { amount := "", typeId := "type-7", description := "", date := "2026-10-11" }
          loading := false
          success := false
          error := "" }).state.error = "Please fill in all required fields" :=
  (add_expense_validation sampleUser "person-1" none
    { formData :=
        { amount := "", typeId := "type-7", description := "", date := "2026-10-11" }
      loading := false
      success := false
      error := "" }
    { formData :=
        { amount := "", category := "Food", description := "", date := "2026-10-11" }
      loading := false
      success := false
      error := "" }
    (Or.inl rfl) (Or.inl rfl)).1

/-- One row of the dashboard page's `Transaction` query
(`src/unnamed/part_000`): id, owner, amount, date, and the direction
reached by the optional chain `t.Type?.Category?.Type` (`none` when a link
of the chain is missing). Dates are timestamps; amounts are exact rationals
(numeric storage, not float rounding, is what the claims concern). -/
structure DashTxn where
  transactionID : String
  personID : String
  amount : ℚ
  transactionDate : Int
  direction : Option String
deriving DecidableEq

/-- Comparator realizing `.order('TransactionDate', { ascending: false })`:
`a` precedes `b` when `a`'s date is the later one. -/
def dateDesc (a b : DashTxn) : Prop :=
  b.transactionDate ≤ a.transactionDate

instance : DecidableRel dateDesc := fun a b =>
  Int.decLe b.transactionDate a.transactionDate

instance : IsTotal DashTxn dateDesc :=
  ⟨fun a b => le_total b.transactionDate a.transactionDate⟩

instance : IsTrans DashTxn dateDesc :=
  ⟨fun _ _ _ hab hbc => le_trans hbc hab⟩

/-- The dashboard query of `fetchTransactions`: rows of the current Person
(`.eq('PersonID', ...)`), ordered by transaction date descending, limited to
10 (`.limit(10)`), per the remote service's documented semantics for
`order`/`limit`. -/
def dashboardQuery (personID : String) (db : List DashTxn) : List DashTxn :=
  (((db.filter (fun t => t.personID == personID)).insertionSort dateDesc).take 10)

/-- The four client-side statistics of `fetchTransactions`. -/
structure DashStats where
  totalIncome : ℚ
  totalExpenses : ℚ
  netBalance : ℚ
  thisMonth : ℚ
deriving DecidableEq

/-- Statistics computation of `fetchTransactions` over the fetched rows:
income and expense totals by filtering on the transitive direction, net
balance as their difference, and the this-month net as a signed fold over
the rows dated at or after the start of the month. -/
def computeStats (monthStart : Int) (txns : List DashTxn) : DashStats :=
  let income :=
    (txns.filter (fun t => t.direction == some "INCOME")).foldl
      (fun s t => s + t.amount) 0
  let expenses :=
    (txns.filter (fun t => t.direction == some "EXPENSE")).foldl
      (fun s t => s + t.amount) 0
  let thisMonthTxns := txns.filter (fun t => monthStart ≤ t.transactionDate)
  let thisMonthNet :=
    thisMonthTxns.foldl
      (fun s t =>
        if t.direction == some "INCOME" then s + t.amount else s - t.amount) 0
  { totalIncome := income
    totalExpenses := expenses
    netBalance := income - expenses
    thisMonth := thisMonthNet }

/-- Auxiliary: a left fold accumulating `+ f t` from `a` is `a` plus the sum
of the mapped list. -/
theorem foldl_add_amount (f : DashTxn → ℚ) (l : List DashTxn) (a : ℚ) :
    l.foldl (fun s t => s + f t) a = a + (l.map f).sum := by
  induction l generalizing a with
  | nil => simp
  | cons t tl ih => simp [ih, add_assoc]

/-- C10: the dashboard statistics are computed over a window holding at most
the 10 most recent transactions of the current Person — every window row
belongs to that Person's history, and every excluded row of that history is
no more recent than any window row — and within the window the net balance
equals total income minus total expenses, where a row counts as income iff
its transitive direction is "INCOME" and as expense iff it is "EXPENSE". -/
theorem dashboard_stats_window (personID : String) (db : List DashTxn)
    (monthStart : Int) (w : List DashTxn)
    (hw : w = dashboardQuery personID db) :
    w.length ≤ 10
      ∧ (∀ t ∈ w, t ∈ db ∧ t.personID = personID)
      ∧ (∀ t ∈ db, t.personID = personID → t ∉ w →
          ∀ x ∈ w, t.transactionDate ≤ x.transactionDate)
      ∧ (computeStats monthStart w).netBalance
        = (computeStats monthStart w).totalIncome
            - (computeStats monthStart w).totalExpenses
      ∧ (computeStats monthStart w).totalIncome
        = ((w.filter (fun t => t.direction == some "INCOME")).map
            DashTxn.amount).sum
      ∧ (computeStats monthStart w).totalExpenses
        = ((w.filter (fun t => t.direction == some "EXPENSE")).map
            DashTxn.amount).sum := by
  subst hw
  refine ⟨List.length_take_le 10 _, ?_, ?_, rfl, ?_, ?_⟩
  · intro t ht
    have hts : t ∈ (db.filter (fun t => t.personID == personID)).insertionSort dateDesc :=
      List.Sublist.mem ht (List.take_sublist 10 _)
    have htf := List.mem_filter.mp
      ((List.perm_insertionSort dateDesc _).mem_iff.mp hts)
    exact ⟨htf.1, by simpa using htf.2⟩
  · intro t htdb htpid htnw x hx
    set s := (db.filter (fun t => t.personID == personID)).insertionSort dateDesc
      with hs
    have hts : t ∈ s :=
      (List.perm_insertionSort dateDesc _).mem_iff.mpr
        (List.mem_filter.mpr ⟨htdb, by simp [htpid]⟩)
    have hts2 : t ∈ s.take 10 ++ s.drop 10 := by
      rw [List.take_append_drop 10 s]
      exact hts
    have htd : t ∈ s.drop 10 := by
      rcases List.mem_append.mp hts2 with h | h
      · exact absurd h htnw
      · exact h
    have hsorted : List.Pairwise dateDesc s := List.sorted_insertionSort dateDesc _
    have hsplit := List.pairwise_append.mp
      (by rw [List.take_append_drop 10 s]; exact hsorted)
    exact hsplit.2.2 x hx t htd
  · simp [computeStats, foldl_add_amount]
  · simp [computeStats, foldl_add_amount]

/-- Sample transaction `n` of the sample history: date and amount `n`,
alternating direction. -/
def sampleTxn (n : Nat) : DashTxn :=
  { transactionID := toString n
    personID := "p1"
    amount := n
    transactionDate := n
    direction := if n % 2 = 0 then some "INCOME" else some "EXPENSE" }

/-- Sample history of 11 transactions, so the dashboard window drops the
oldest one. -/
def sampleDb : List DashTxn := (List.range 11).map (fun n => sampleTxn (n + 1))

/-- Witness for `dashboard_stats_window` on the concrete 11-row history:
the window caps at 10 rows, and the excluded oldest row dates no later than
a row of the window. -/
theorem dashboard_stats_window_witness :
    (dashboardQuery "p1" sampleDb).length ≤ 10
      ∧ (sampleTxn 1).transactionDate ≤ (sampleTxn 11).transactionDate :=
  ⟨(dashboard_stats_window "p1" sampleDb 0 (dashboardQuery "p1" sampleDb)
      rfl).1,
    (dashboard_stats_window "p1" sampleDb 0 (dashboardQuery "p1" sampleDb)
      rfl).2.2.1 (sampleTxn 1) (by decide) rfl (by decide) (sampleTxn 11)
      (by decide)⟩

end AdminDashboard
